import Mathlib

/-!
# Verification of the marcaTexto document-highlighting service

Shallow embedding of `src/main.py`: the red-text span extractor
(`get_red_text`), the highlight propagator (`find_text_and_highlight`),
the credential refresh decision (`get_credentials_from_env`) and the
orchestrating endpoint (`processar_documento`), together with theorems
checking the natural-language specification against this code.

Remote I/O is modelled by passing the fetched document tree (resp. the
remote outcome) as an explicit argument and by returning the list of
remote calls a function issues.
-/

namespace MarcaTexto

/-- An `rgbColor` value of the remote schema: each channel is a number in
`[0,1]`, and the remote service omits a channel whose value is zero, so each
channel is optional.  Channels are modelled as rationals (exact values, as the
source compares them with strict numeric equality). -/
structure RgbColor where
  red : Option ℚ
  green : Option ℚ
  blue : Option ℚ
deriving DecidableEq, Repr

/-- Python truthiness of an optional numeric channel (`None`, `0` and `0.0`
are falsy, everything else truthy). -/
def truthyChannel : Option ℚ → Bool
  | none => false
  | some q => decide (q ≠ 0)

/-- A `textRun` of the document tree: its text `content` and the
`foregroundColor` of its `textStyle` (`none` when the run carries no
foreground color, i.e. default/automatic color, covering the absent
`textStyle`/`foregroundColor`/`color`/`rgbColor` keys of the source's chained
lookups). -/
structure TextRun where
  content : String
  foregroundColor : Option RgbColor
deriving DecidableEq, Repr

/-- A paragraph element: `elem.get("textRun")` may be absent. -/
def ParagraphElement := Option TextRun
deriving DecidableEq, Repr

/-- A structural element of the document body: either a paragraph with its
list of elements, or any other kind (table, section break, ...), which
`get_red_text` skips (`if "paragraph" in value`). -/
inductive StructuralElement where
  | paragraph (elements : List ParagraphElement)
  | other
deriving DecidableEq, Repr

/-- A document body's `content`: the list the source iterates over. -/
def DocContent := List StructuralElement
deriving DecidableEq, Repr

/-- The color test of `get_red_text`, line 81 of the source:
`color_info.get("red") == 1 and not color_info.get("green") and not
color_info.get("blue")`, guarded by the presence of a foreground color. -/
def colorMatches : Option RgbColor → Bool
  | none => false
  | some c => decide (c.red = some 1) && !truthyChannel c.green && !truthyChannel c.blue

/-- Whether a text run's content is appended to the accumulator. -/
def runMatches (tr : TextRun) : Bool :=
  colorMatches tr.foregroundColor

/-- One step of the inner loop of `get_red_text`: fold a paragraph element
into the accumulator. -/
def accumElem (acc : String) (e : ParagraphElement) : String :=
  match e with
  | some tr => if runMatches tr then acc ++ tr.content else acc
  | none => acc

/-- One step of the outer loop of `get_red_text`: fold a structural element
into the accumulator. -/
def accumStruct (acc : String) (se : StructuralElement) : String :=
  match se with
  | .paragraph elems => elems.foldl accumElem acc
  | .other => acc

/-- The accumulator `texto_vermelho` after the full traversal of the
document body (lines 73-82 of the source). -/
def accumRedText (doc : DocContent) : String :=
  List.foldl accumStruct "" doc

/-- `s.replace('\n', '')`: remove every newline character. -/
def stripNewlines (s : String) : String :=
  ⟨s.data.filter (fun c => decide (c ≠ '\n'))⟩

/-- `get_red_text` (lines 70-83), with the fetched document body passed as an
argument: accumulate the matching runs' content, then
`return texto_vermelho.replace('\n', '') if texto_vermelho else None`. -/
def get_red_text (doc : DocContent) : Option String :=
  let texto_vermelho := accumRedText doc
  if texto_vermelho = "" then none else some (stripNewlines texto_vermelho)

/-- All text runs of the document, in document order, as `get_red_text`
visits them. -/
def docRuns (doc : DocContent) : List TextRun :=
  doc.flatMap fun se =>
    match se with
    | .paragraph elems => elems.filterMap id
    | .other => []

/-- The contents of the color-matching runs, in document order. -/
def matchingContents (doc : DocContent) : List String :=
  ((docRuns doc).filter runMatches).map TextRun.content

/-- Concatenation of a list of strings, in order. -/
def concatAll : List String → String
  | [] => ""
  | s :: rest => s ++ concatAll rest

/-! ## Credential manager (`get_credentials_from_env`, lines 54-68) -/

/-- Python truthiness of an optional string (`None` and `""` are falsy). -/
def truthyStr : Option String → Bool
  | none => false
  | some s => decide (s ≠ "")

/-- The token material read from `GOOGLE_TOKEN_JSON`: `token_info.get('token')`
and `token_info.get('refresh_token')`. -/
structure TokenInfo where
  token : Option String
  refresh_token : Option String
deriving DecidableEq, Repr

/-- The `Credentials` object as far as the source inspects it: the cached
access token, the refresh token, and the library-computed `expired` flag
(an input of the model, determined by the credential's expiry and the clock). -/
structure Credentials where
  token : Option String
  refresh_token : Option String
  expired : Bool
deriving DecidableEq, Repr

/-- The refresh guard on line 64 of the source:
`if creds and creds.expired and creds.refresh_token` (a freshly constructed
`Credentials` object is always truthy). -/
def refreshCondition (c : Credentials) : Bool :=
  c.expired && truthyStr c.refresh_token

/-- `get_credentials_from_env` (lines 54-68): build the credentials from the
token material, refresh exactly when the guard holds.  Returns the resulting
credentials together with the number of calls made to the token endpoint;
`newToken` is the access token a successful refresh exchange would return. -/
def get_credentials_from_env (ti : TokenInfo) (expired : Bool)
    (newToken : String) : Credentials × ℕ :=
  let creds : Credentials := ⟨ti.token, ti.refresh_token, expired⟩
  if refreshCondition creds then
    (⟨some newToken, creds.refresh_token, false⟩, 1)
  else
    (creds, 0)

/-! ## Style propagator (`find_text_and_highlight`, lines 85-95) -/

/-- An RGB triple with all channels present, as written literally in the
batch-update request body. -/
structure RgbTriple where
  red : ℚ
  green : ℚ
  blue : ℚ
deriving DecidableEq, Repr

/-- The `textStyle` object of a `replaceAllText` request, with the optional
style fields of the remote schema; the source sets only `backgroundColor`. -/
structure TextStyle where
  backgroundColor : Option RgbTriple
  foregroundColor : Option RgbTriple
  bold : Option Bool
  italic : Option Bool
  underline : Option Bool
deriving DecidableEq, Repr

/-- A `replaceAllText` operation of a batch-update body. -/
structure ReplaceAllTextOp where
  containsText_text : String
  containsText_matchCase : Bool
  replaceText : String
  textStyle : TextStyle
deriving DecidableEq, Repr

/-- A remote call issued to the document service. -/
inductive RemoteCall where
  | batchUpdate (documentId : String) (requests : List ReplaceAllTextOp)
deriving DecidableEq, Repr

/-- The `requests` list built by `find_text_and_highlight` (lines 86-94):
one `replaceAllText` operation, replacing `text_to_find` with itself,
case-sensitive, restyled with a yellow background and nothing else. -/
def buildHighlightRequests (text_to_find : String) : List ReplaceAllTextOp :=
  [{ containsText_text := text_to_find
     containsText_matchCase := true
     replaceText := text_to_find
     textStyle :=
       { backgroundColor := some ⟨1, 1, 0⟩
         foregroundColor := none
         bold := none
         italic := none
         underline := none } }]

/-- `find_text_and_highlight` (lines 85-95), returning the remote calls it
issues: unconditionally one `batchUpdate` against `document_id`. -/
def find_text_and_highlight (document_id text_to_find : String) :
    List RemoteCall :=
  [.batchUpdate document_id (buildHighlightRequests text_to_find)]

/-! ## Orchestrator (`processar_documento`, lines 101-122) -/

/-- The successful responses of the endpoint: the no-red-text no-op
(line 110) and the highlighted outcome (line 112). -/
inductive OrchResponse where
  | noOpComplete
  | propagated (texto : String)
deriving DecidableEq, Repr

/-- The happy path of `processar_documento` (lines 106-112), with the fetched
source document passed in: extract the red text; if it is falsy (`None` or
empty), return the no-op success without touching the destination; otherwise
highlight it in the destination document.  Returns the response together with
the remote write calls issued. -/
def processar (sourceDoc : DocContent) (destId : String) :
    OrchResponse × List RemoteCall :=
  match get_red_text sourceDoc with
  | none => (.noOpComplete, [])
  | some s =>
    if s = "" then (.noOpComplete, [])
    else (.propagated s, find_text_and_highlight destId s)

/-- A remote `HttpError`: HTTP status and the `error.message` field of its
JSON body (absent when the body carries no message). -/
structure HttpError where
  status : ℕ
  message : Option String
deriving DecidableEq, Repr

/-- How a remote interaction of the `try` block can end. -/
inductive RemoteOutcome where
  | success (doc : DocContent)
  | httpError (e : HttpError)
  | otherError (msg : String)
deriving DecidableEq, Repr

/-- A FastAPI `HTTPException` as raised by the endpoint. -/
structure HTTPException where
  status_code : ℕ
  detail : String
deriving DecidableEq, Repr

/-- `error_details.get('message', 'Erro desconhecido')` (line 118). -/
def messageOf (e : HttpError) : String :=
  match e.message with
  | some m => m
  | none => "Erro desconhecido"

/-- The `except HttpError` handler (lines 113-119): every `HttpError`,
whatever its remote status, becomes an HTTP 400 response embedding the
remote message. -/
def mapHttpError (e : HttpError) : HTTPException :=
  ⟨400, "Erro na API do Google: " ++ messageOf e ++
    ". Verifique se o ID do documento é de um Google Doc nativo."⟩

/-- The `except Exception` handler (lines 120-122): any other exception
becomes an HTTP 500 response embedding the exception's message. -/
def mapOtherError (msg : String) : HTTPException :=
  ⟨500, "Ocorreu um erro interno: " ++ msg⟩

/-- `processar_documento` (lines 101-122) after the API-key check, with the
outcome of the remote layer passed in: on success run the happy path, on a
remote error apply the corresponding handler. -/
def processar_documento (outcome : RemoteOutcome) (destId : String) :
    Except HTTPException (OrchResponse × List RemoteCall) :=
  match outcome with
  | .success doc => .ok (processar doc destId)
  | .httpError e => .error (mapHttpError e)
  | .otherError msg => .error (mapOtherError msg)

/-- The effective numeric value of an optional channel: the remote schema
omits zero-valued channels, so an absent channel denotes `0`. -/
def effChannel : Option ℚ → ℚ
  | none => 0
  | some q => q

/-! ## Helper lemmas -/

theorem concatAll_append (l1 l2 : List String) :
    concatAll (l1 ++ l2) = concatAll l1 ++ concatAll l2 := by
  induction l1 with
  | nil => simp [concatAll, String.empty_append]
  | cons s rest ih => simp [concatAll, ih, String.append_assoc]

theorem foldl_accumElem (elems : List ParagraphElement) (acc : String) :
    elems.foldl accumElem acc =
      acc ++ concatAll (((elems.filterMap id).filter runMatches).map TextRun.content) := by
  induction elems generalizing acc with
  | nil => simp [concatAll, String.append_empty]
  | cons e rest ih =>
    cases e with
    | none => simp [accumElem, ih]
    | some tr =>
      cases hr : runMatches tr with
      | true => simp [accumElem, hr, ih, List.filter_cons, concatAll, String.append_assoc]
      | false => simp [accumElem, hr, ih, List.filter_cons]

theorem foldl_accumStruct (doc : List StructuralElement) (acc : String) :
    doc.foldl accumStruct acc = acc ++ concatAll (matchingContents doc) := by
  induction doc generalizing acc with
  | nil => simp [matchingContents, docRuns, concatAll, String.append_empty]
  | cons se rest ih =>
    cases se with
    | other =>
      simp [accumStruct, ih, matchingContents, docRuns]
    | paragraph elems =>
      simp [accumStruct, foldl_accumElem, ih, matchingContents, docRuns,
        List.filter_append, List.map_append, concatAll_append, String.append_assoc]

theorem accumRedText_eq_concat (doc : DocContent) :
    accumRedText doc = concatAll (matchingContents doc) := by
  simpa [String.empty_append] using foldl_accumStruct doc ""

theorem effChannel_eq_one_iff (o : Option ℚ) : effChannel o = 1 ↔ o = some 1 := by
  cases o <;> simp [effChannel]

theorem truthyChannel_false_iff (o : Option ℚ) :
    truthyChannel o = false ↔ effChannel o = 0 := by
  cases o <;> simp [truthyChannel, effChannel]

/-! ## Claim theorems -/

/-- C1 (counterexample): a document whose only color-matching run consists
solely of a newline character makes `get_red_text` return the *empty string*,
not the absent value: the source tests the accumulator for emptiness *before*
stripping newlines, so the claimed invariant "a present result is non-empty"
fails. -/
theorem get_red_text_newline_only_not_absent :
    get_red_text [.paragraph [some ⟨"\n", some ⟨some 1, none, none⟩⟩]] = some "" ∧
    some "" ≠ (none : Option String) := by
  exact ⟨by decide, by decide⟩

/-- C1 (amended): `get_red_text` returns the absent value exactly when the
raw accumulator — the in-order concatenation of the matching runs' contents,
*before* newline stripping — is empty; otherwise it returns the
newline-stripped concatenation, which may itself be the empty string when the
matching runs consist solely of newline characters. -/
theorem get_red_text_absent_iff_accum_empty :
    ∀ doc : DocContent,
      get_red_text doc =
        if concatAll (matchingContents doc) = "" then none
        else some (stripNewlines (concatAll (matchingContents doc))) := by
  intro doc
  simp only [get_red_text, accumRedText_eq_concat]

/-- C9 (confirmed): stripping all newline characters is idempotent. -/
theorem stripNewlines_idempotent :
    ∀ s : String, stripNewlines (stripNewlines s) = stripNewlines s := by
  intro s
  simp [stripNewlines, List.filter_filter]

/-- C5 (confirmed): the color predicate of `get_red_text` holds exactly when
a foreground color is present and its effective channel triple (an absent
channel denotes `0` in the remote schema) equals `(red 1, green 0, blue 0)`;
in particular `(1, 0.0001, 0)` does not match, `(1, 0, 0)` matches, and a run
with no foreground color never matches. -/
theorem colorMatches_iff_pure_red :
    (∀ fg : Option RgbColor,
      colorMatches fg = true ↔
        ∃ c, fg = some c ∧ effChannel c.red = 1 ∧ effChannel c.green = 0 ∧
          effChannel c.blue = 0) ∧
    colorMatches (some ⟨some 1, some (1/10000), none⟩) = false ∧
    colorMatches (some ⟨some 1, some 0, some 0⟩) = true ∧
    colorMatches none = false := by
  refine ⟨?_, by norm_num [colorMatches, truthyChannel], by decide, by decide⟩
  intro fg
  cases fg with
  | none => simp [colorMatches]
  | some c =>
    simp [colorMatches, effChannel_eq_one_iff, ← truthyChannel_false_iff,
      Bool.not_eq_true', and_assoc]

/-- C7 (confirmed): the accumulator of `get_red_text` is the concatenation of
the contents of every color-matching run across the entire document, in
document order; in particular a paragraph with runs
`[colored "AB", plain "x", colored "CD"]` extracts to `"ABCD"`. -/
theorem extraction_concatenates_matching_runs :
    (∀ doc : DocContent, accumRedText doc = concatAll (matchingContents doc)) ∧
    get_red_text [.paragraph [some ⟨"AB", some ⟨some 1, none, none⟩⟩,
      some ⟨"x", none⟩, some ⟨"CD", some ⟨some 1, none, none⟩⟩]] = some "ABCD" := by
  exact ⟨accumRedText_eq_concat, by decide⟩

/-- C8 (counterexample): reordering the run list need *not* change the
output: the two documents below have run lists that are permutations of each
other and differ as lists, yet `get_red_text` gives the same result on both,
so "reordering the input run list must change the output" fails as a
universal statement. -/
theorem reordering_can_preserve_output :
    ([some ⟨"x", none⟩, some ⟨"y", none⟩] : List ParagraphElement).Perm
      [some ⟨"y", none⟩, some ⟨"x", none⟩] ∧
    ([some ⟨"x", none⟩, some ⟨"y", none⟩] : List ParagraphElement) ≠
      [some ⟨"y", none⟩, some ⟨"x", none⟩] ∧
    get_red_text [.paragraph [some ⟨"x", none⟩, some ⟨"y", none⟩]] =
      get_red_text [.paragraph [some ⟨"y", none⟩, some ⟨"x", none⟩]] := by
  refine ⟨List.Perm.swap _ _ _, by decide, by decide⟩

/-- C8 (amended): extraction is order-sensitive — it is not a multiset
operation: there exist documents whose run lists are permutations of each
other on which `get_red_text` produces different outputs. -/
theorem extraction_order_sensitive_exists :
    ∃ e1 e2 : List ParagraphElement, e1.Perm e2 ∧
      get_red_text [.paragraph e1] ≠ get_red_text [.paragraph e2] := by
  refine ⟨[some ⟨"A", some ⟨some 1, none, none⟩⟩, some ⟨"B", some ⟨some 1, none, none⟩⟩],
    [some ⟨"B", some ⟨some 1, none, none⟩⟩, some ⟨"A", some ⟨some 1, none, none⟩⟩],
    List.Perm.swap _ _ _, by decide⟩

/-- C2 (counterexample): `find_text_and_highlight` called with empty text
does *not* fail and *does* issue a remote call: it has no emptiness guard and
unconditionally issues the batch-update request, so "fails with
EmptyMatchTextError and issues no remote call" fails on the code. -/
theorem highlight_empty_text_issues_remote_call :
    find_text_and_highlight "doc" "" ≠ [] ∧
    (find_text_and_highlight "doc" "").length = 1 := by
  exact ⟨by decide, by decide⟩

/-- C2 (amended): `find_text_and_highlight` performs no emptiness check and
issues the batch-update request for every text, the empty one included; the
guard lives in the orchestrator, whose falsy test ensures the propagator is
only ever invoked with a non-empty text. -/
theorem highlight_no_empty_guard :
    (∀ docId text : String, find_text_and_highlight docId text ≠ []) ∧
    (∀ (doc : DocContent) (destId : String),
      (processar doc destId).2 = [] ∨
      ∃ s, s ≠ "" ∧ (processar doc destId).2 = find_text_and_highlight destId s) := by
  constructor
  · intro docId text
    simp [find_text_and_highlight]
  · intro doc destId
    unfold processar
    cases get_red_text doc with
    | none => exact Or.inl rfl
    | some s =>
      by_cases hs : s = ""
      · simp [hs]
      · exact Or.inr ⟨s, hs, by simp [hs]⟩

/-- C3 (counterexample): with an *absent* cached access token but an
unexpired credential and a refresh token present, `get_credentials_from_env`
makes zero calls to the token endpoint — the source's guard tests only
`creds.expired and creds.refresh_token`, never token absence — so "refresh
if and only if the access token is absent or expired" fails on the code. -/
theorem refresh_skipped_when_token_absent :
    (get_credentials_from_env ⟨none, some "r"⟩ false "t").2 = 0 ∧
    (⟨none, some "r"⟩ : TokenInfo).token = none ∧
    truthyStr (some "r") = true := by
  exact ⟨by decide, by decide, by decide⟩

/-- C3 (amended): `get_credentials_from_env` performs the refresh exchange if
and only if the credential reports expired *and* a (truthy) refresh token is
present; an absent access token alone does not trigger a refresh, and an
unexpired cached credential always results in zero token-endpoint calls. -/
theorem refresh_iff_expired_with_refresh_token :
    ∀ (ti : TokenInfo) (expired : Bool) (newToken : String),
      ((get_credentials_from_env ti expired newToken).2 = 1 ↔
        expired = true ∧ truthyStr ti.refresh_token = true) ∧
      (expired = false → (get_credentials_from_env ti expired newToken).2 = 0) := by
  intro ti expired newToken
  unfold get_credentials_from_env refreshCondition
  cases expired with
  | false => simp
  | true =>
    cases ht : truthyStr ti.refresh_token with
    | false => simp [ht]
    | true => simp [ht]

/-- Witness for C3's amended theorem at a concrete unexpired credential. -/
theorem refresh_iff_expired_with_refresh_token_witness :
    (get_credentials_from_env ⟨some "tok", some "r"⟩ false "nt").2 = 0 :=
  (refresh_iff_expired_with_refresh_token ⟨some "tok", some "r"⟩ false "nt").2 rfl

/-- C4 (counterexample): a remote 404, a remote 403 and any other non-success
response are all surfaced with the *same* status code 400, and with equal
messages the surfaced failures are *identical* — the code exposes one error
kind for every remote `HttpError`, not three distinct kinds. -/
theorem remote_404_403_same_failure_kind :
    (mapHttpError ⟨404, some "not found"⟩).status_code = 400 ∧
    (mapHttpError ⟨403, some "denied"⟩).status_code = 400 ∧
    (mapHttpError ⟨500, some "boom"⟩).status_code = 400 ∧
    mapHttpError ⟨404, some "m"⟩ = mapHttpError ⟨403, some "m"⟩ := by
  exact ⟨rfl, rfl, rfl, rfl⟩

/-- C4 (amended): every remote `HttpError`, regardless of its status
(404-, 401/403-equivalent or any other), is surfaced as one uniform HTTP 400
failure whose detail embeds the remote-provided error message (or a fixed
fallback when the remote body carries none); every other exception is
surfaced as an HTTP 500 failure embedding the exception's message; in both
cases the original message is preserved in the reported failure. -/
theorem remote_error_uniform_mapping :
    ∀ (e : HttpError) (msg destId : String),
      processar_documento (.httpError e) destId = .error (mapHttpError e) ∧
      (mapHttpError e).status_code = 400 ∧
      (∃ pre post, (mapHttpError e).detail = pre ++ messageOf e ++ post) ∧
      (e.message = some msg →
        ∃ pre post, (mapHttpError e).detail = pre ++ msg ++ post) ∧
      processar_documento (.otherError msg) destId = .error (mapOtherError msg) ∧
      (mapOtherError msg).status_code = 500 ∧
      ∃ pre, (mapOtherError msg).detail = pre ++ msg := by
  intro e msg destId
  refine ⟨rfl, rfl, ⟨_, _, rfl⟩, ?_, rfl, rfl, ⟨_, rfl⟩⟩
  intro hm
  exact ⟨"Erro na API do Google: ",
    ". Verifique se o ID do documento é de um Google Doc nativo.",
    by simp [mapHttpError, messageOf, hm]⟩

/-- Witness for C4's amended theorem at a concrete remote 404 error. -/
theorem remote_error_uniform_mapping_witness :
    ∃ pre post,
      (mapHttpError ⟨404, some "quota exceeded"⟩).detail =
        pre ++ "quota exceeded" ++ post :=
  (remote_error_uniform_mapping ⟨404, some "quota exceeded"⟩
    "quota exceeded" "d").2.2.2.1 rfl

/-- C6 (confirmed): when extraction returns the absent value the orchestrator
returns the no-op terminal success and issues zero propagator calls; the
propagator is invoked exactly when the extracted span is present and
non-empty, and every issued call is a batch update against the destination
document id. -/
theorem orchestrator_gates_propagation :
    ∀ (doc : DocContent) (destId : String),
      (get_red_text doc = none →
        processar doc destId = (.noOpComplete, [])) ∧
      ((processar doc destId).2 ≠ [] ↔
        ∃ s, get_red_text doc = some s ∧ s ≠ "") ∧
      (∀ c ∈ (processar doc destId).2, ∃ reqs, c = .batchUpdate destId reqs) := by
  intro doc destId
  unfold processar
  cases h : get_red_text doc with
  | none => simp
  | some s =>
    by_cases hs : s = ""
    · simp [hs]
    · simp [hs, find_text_and_highlight]

/-- Witness for C6's theorem: the empty document extracts nothing, and the
orchestrator completes as a no-op with zero remote write calls. -/
theorem orchestrator_gates_propagation_witness :
    processar [] "dest" = (.noOpComplete, []) :=
  (orchestrator_gates_propagation [] "dest").1 rfl

/-- C10 (confirmed): the batch update built by `find_text_and_highlight`
contains exactly one `replaceAllText` operation; its `replaceText` equals its
`containsText.text`, which is the input text unmodified, `matchCase` is true,
and its replacement style sets only a background color, fixed at yellow
`rgb(1, 1, 0)`. -/
theorem batch_update_single_replace_all :
    ∀ docId t : String,
      find_text_and_highlight docId t = [.batchUpdate docId (buildHighlightRequests t)] ∧
      (buildHighlightRequests t).length = 1 ∧
      ∀ op ∈ buildHighlightRequests t,
        op.replaceText = op.containsText_text ∧
        op.containsText_text = t ∧
        op.containsText_matchCase = true ∧
        op.textStyle.backgroundColor = some ⟨1, 1, 0⟩ ∧
        op.textStyle.foregroundColor = none ∧
        op.textStyle.bold = none ∧
        op.textStyle.italic = none ∧
        op.textStyle.underline = none := by
  intro docId t
  refine ⟨rfl, rfl, ?_⟩
  intro op hop
  simp [buildHighlightRequests] at hop
  subst hop
  exact ⟨rfl, rfl, rfl, rfl, rfl, rfl, rfl, rfl⟩

/-- Witness for C10's theorem at a concrete text. -/
theorem batch_update_single_replace_all_witness :
    (buildHighlightRequests "abc").length = 1 ∧
    ((buildHighlightRequests "abc").head (by decide)).containsText_text = "abc" := by
  have h := batch_update_single_replace_all "d" "abc"
  exact ⟨h.2.1, (h.2.2 _ (List.head_mem _)).2.1⟩

end MarcaTexto
